import Mathlib

/-!
Shallow embedding of the `event_ticketing` Anchor program
(`anchor_project/programs/event_ticketing/src`): record types from
`state.rs`, errors from `errors.rs`, and the instruction handlers together
with the account constraints of their `#[derive(Accounts)]` structs.

Modelling conventions:
* Account addresses (`Pubkey`) are abstracted as `Nat`.
* `u32`/`u64` fields are `Nat`.  The only arithmetic the program performs is
  `event.sold += 1`, guarded by `require!(event.sold < event.supply)`; for
  any `supply` that fits in a `u32` the successor stays within `u32`, so no
  wrap-around is reachable and plain `Nat` successor is faithful.
* Lamport balances are a map `Pubkey → Nat`; the system-program transfer
  CPI fails exactly when the source balance is below the amount (the
  ledger's conservation of the total lamport supply rules out receiver
  overflow).
* A failed instruction returns `Except.error` and produces no state: this
  is the runtime's all-or-nothing transaction semantics.
* Anchor validates the `#[derive(Accounts)]` constraints before the handler
  body runs; the embeddings check them first, in declaration order.
-/

set_option maxHeartbeats 1000000

namespace EventTicketing

/-- Account addresses / public keys, abstracted as naturals. -/
abbrev Pubkey := Nat

/-- The typed program errors of `errors.rs` (`EventTicketingError`). -/
inductive EventTicketingError where
  | EventAlreadyExists
  | EventSoldOut
  | EventCanceled
  | UnauthorizedTransfer
  | TicketAlreadyUsed
  | AlreadyCheckedIn
  | UnauthorizedCheckIn
  | CannotRefundUsedTicket
  | AlreadyRefunded
  | NameTooLong
  | DateTooLong
  deriving DecidableEq

/-- A transaction-level failure: a typed program error from `errors.rs`, a
raw Anchor `constraint = ...` violation that has no `@ error` attached
(as on the `event` and `ticket` accounts of `Refund` and `CancelEvent`),
or a failed system-program lamport transfer CPI. -/
inductive TxError where
  | program (e : EventTicketingError)
  | constraintViolation
  | transferFailed
  deriving DecidableEq

/-- `constants.rs`: `MAX_NAME_LEN`. -/
def MAX_NAME_LEN : Nat := 50

/-- `constants.rs`: `MAX_DATE_LEN`. -/
def MAX_DATE_LEN : Nat := 30

/-- `state.rs`: the `Event` account. -/
structure Event where
  event_authority : Pubkey
  price : Nat
  supply : Nat
  sold : Nat
  canceled : Bool
  event_id : Nat
  name : String
  date : String
  deriving DecidableEq

/-- `state.rs`: the `Ticket` account.  `event` is the address of the event
the ticket belongs to. -/
structure Ticket where
  owner : Pubkey
  event : Pubkey
  ticket_id : Nat
  is_used : Bool
  refunded : Bool
  deriving DecidableEq

/-- UTF-8 encoded size of one character, as in Rust's `char::len_utf8`. -/
def charUtf8Size (c : Char) : Nat :=
  if c.val < 0x80 then 1
  else if c.val < 0x800 then 2
  else if c.val < 0x10000 then 3
  else 4

/-- Rust's `String::len`: the UTF-8 byte length of the string (not the
number of characters). -/
def strByteLen (s : String) : Nat :=
  s.data.foldl (fun n c => n + charUtf8Size c) 0

/-- The system-program `transfer` CPI: move `amount` lamports from `src` to
`dst`, failing (`none`) when `src` holds fewer than `amount` lamports. -/
def systemTransfer (b : Pubkey → Nat) (src dst : Pubkey) (amount : Nat) :
    Option (Pubkey → Nat) :=
  if b src < amount then none
  else
    let b1 : Pubkey → Nat := fun k => if k = src then b k - amount else b k
    some (fun k => if k = dst then b1 k + amount else b1 k)

/-- Handler of `instructions/initialize_event.rs` (the event-creation
instruction): length checks via Rust `String::len` (bytes), then the event
record is written with `sold = 0`, `canceled = false` and the arguments
stored verbatim. -/
def init_event (auth : Pubkey) (eid price supply : Nat) (name date : String) :
    Except TxError Event :=
  if strByteLen name ≤ MAX_NAME_LEN then
    if strByteLen date ≤ MAX_DATE_LEN then
      .ok { event_authority := auth, price := price, supply := supply,
            sold := 0, canceled := false, event_id := eid,
            name := name, date := date }
    else .error (.program .DateTooLong)
  else .error (.program .NameTooLong)

/-- Result of a successful `mint_ticket`: the updated event, the freshly
created ticket, and the updated balances. -/
structure MintResult where
  event : Event
  ticket : Ticket
  balances : Pubkey → Nat

/-- `instructions/mint_ticket.rs`: `ek` is the event's address, `vk` the
vault PDA for that event, `buyer` the signing buyer.  Checks `canceled` and
`sold < supply`, transfers `price` lamports buyer → vault, creates the
ticket with `ticket_id = sold` (pre-increment), then increments `sold`. -/
def mint_ticket (e : Event) (ek buyer vk : Pubkey) (b : Pubkey → Nat) :
    Except TxError MintResult :=
  if e.canceled then .error (.program .EventCanceled)
  else if e.sold < e.supply then
    match systemTransfer b buyer vk e.price with
    | none => .error .transferFailed
    | some b2 =>
      .ok { event := { e with sold := e.sold + 1 },
            ticket := { owner := buyer, event := ek, ticket_id := e.sold,
                        is_used := false, refunded := false },
            balances := b2 }
  else .error (.program .EventSoldOut)

/-- `instructions/transfer_ticket.rs`: the `TransferTicket` accounts check
`ticket.owner == current_owner` (signer) with `UnauthorizedTransfer`; the
handler then checks `is_used` and `refunded` and reassigns the owner.  The
handler performs no lamport transfer. -/
def transfer_ticket (t : Ticket) (cur new_owner : Pubkey) :
    Except TxError Ticket :=
  if t.owner = cur then
    if t.is_used then .error (.program .TicketAlreadyUsed)
    else if t.refunded then .error (.program .AlreadyRefunded)
    else .ok { t with owner := new_owner }
  else .error (.program .UnauthorizedTransfer)

/-- `instructions/check_in.rs`: the `CheckIn` accounts check
`ticket.event == event.key()` and `event_authority.key() ==
event.event_authority`, both with `UnauthorizedCheckIn`; the handler
checks `is_used` / `refunded` and sets `is_used := true`. -/
def check_in (e : Event) (ek : Pubkey) (t : Ticket) (auth : Pubkey) :
    Except TxError Ticket :=
  if t.event = ek then
    if auth = e.event_authority then
      if t.is_used then .error (.program .AlreadyCheckedIn)
      else if t.refunded then .error (.program .AlreadyRefunded)
      else .ok { t with is_used := true }
    else .error (.program .UnauthorizedCheckIn)
  else .error (.program .UnauthorizedCheckIn)

/-- `instructions/refund.rs`: the `Refund` accounts check
`event.event_authority == event_authority.key()` (signer) and
`ticket.event == event.key()` as raw constraints; the supplied
`ticket_owner` destination account `dst` carries no constraint at all.
The handler checks `is_used` / `refunded`, transfers `event.price`
lamports vault → `dst` signed by the vault PDA seeds, and sets
`refunded := true`. -/
def refund (e : Event) (ek : Pubkey) (t : Ticket) (vk dst auth : Pubkey)
    (b : Pubkey → Nat) : Except TxError (Ticket × (Pubkey → Nat)) :=
  if e.event_authority = auth then
    if t.event = ek then
      if t.is_used then .error (.program .CannotRefundUsedTicket)
      else if t.refunded then .error (.program .AlreadyRefunded)
      else
        match systemTransfer b vk dst e.price with
        | none => .error .transferFailed
        | some b2 => .ok ({ t with refunded := true }, b2)
    else .error .constraintViolation
  else .error .constraintViolation

/-- `instructions/cancel_event.rs`: the `CancelEvent` accounts check
`event.event_authority == event_authority.key()` (signer) as a raw
constraint; the handler unconditionally sets `canceled := true`. -/
def cancel_event (e : Event) (auth : Pubkey) : Except TxError Event :=
  if e.event_authority = auth then .ok { e with canceled := true }
  else .error .constraintViolation

/-!
Trace model for one event.  A `Chain` holds the on-ledger state attached to
one event: the event record, its address `eventKey`, the vault PDA address
`vaultKey`, the event's tickets in creation order (the ticket created by
the i-th successful mint sits at index i), and lamport balances.  `applyOp`
executes one signed instruction against this state: a failing instruction
returns `none` and the state is unchanged — the runtime commits a
transaction's mutations all-or-nothing.  Ticket accounts live at addresses
derived from `(eventKey, sold-at-mint-time)`; as ids strictly increase and
tickets are never closed, a fresh mint never collides with an existing
ticket account, so allocation itself cannot fail. -/

/-- One instruction invocation against the chain state of one event, with
the caller-chosen accounts and signers as parameters.  Indexed operations
act on the i-th ticket of the event. -/
inductive Op where
  | mintOp (buyer : Pubkey)
  | transferOp (i : Nat) (cur new_owner : Pubkey)
  | checkInOp (i : Nat) (auth : Pubkey)
  | refundOp (i : Nat) (dst auth : Pubkey)
  | cancelOp (auth : Pubkey)

/-- On-ledger state attached to one event. -/
structure Chain where
  event : Event
  eventKey : Pubkey
  vaultKey : Pubkey
  tickets : List Ticket
  balances : Pubkey → Nat

/-- Execute one instruction as one atomic transaction: `none` means the
transaction failed and no state changed. -/
def applyOp (s : Chain) : Op → Option Chain
  | .mintOp buyer =>
    match mint_ticket s.event s.eventKey buyer s.vaultKey s.balances with
    | .ok r => some { s with event := r.event, tickets := s.tickets ++ [r.ticket],
                             balances := r.balances }
    | .error _ => none
  | .transferOp i cur new_owner =>
    match s.tickets[i]? with
    | some t =>
      match transfer_ticket t cur new_owner with
      | .ok t2 => some { s with tickets := s.tickets.set i t2 }
      | .error _ => none
    | none => none
  | .checkInOp i auth =>
    match s.tickets[i]? with
    | some t =>
      match check_in s.event s.eventKey t auth with
      | .ok t2 => some { s with tickets := s.tickets.set i t2 }
      | .error _ => none
    | none => none
  | .refundOp i dst auth =>
    match s.tickets[i]? with
    | some t =>
      match refund s.event s.eventKey t s.vaultKey dst auth s.balances with
      | .ok r => some { s with tickets := s.tickets.set i r.1, balances := r.2 }
      | .error _ => none
    | none => none
  | .cancelOp auth =>
    match cancel_event s.event auth with
    | .ok e2 => some { s with event := e2 }
    | .error _ => none

/-- Chain states reachable for one event: created by the event-creation
instruction (with arbitrary addresses and initial lamport balances), then
evolved by any sequence of successful instructions. -/
inductive Reachable : Chain → Prop where
  | create : ∀ (auth eid price supply : Nat) (name date : String) (e : Event)
      (ek vk : Pubkey) (b : Pubkey → Nat),
      init_event auth eid price supply name date = .ok e →
      Reachable { event := e, eventKey := ek, vaultKey := vk,
                  tickets := [], balances := b }
  | step : ∀ (s : Chain) (op : Op) (s2 : Chain),
      Reachable s → applyOp s op = some s2 → Reachable s2

/-- Zero or more successful instructions. -/
inductive Steps : Chain → Chain → Prop where
  | refl : ∀ s, Steps s s
  | tail : ∀ (s s2 s3 : Chain) (op : Op),
      Steps s s2 → applyOp s2 op = some s3 → Steps s s3

/-! Success-inversion lemmas: what a handler's `.ok` result implies. -/

theorem systemTransfer_eq_some {b : Pubkey → Nat} {src dst : Pubkey}
    {amount : Nat} {b2 : Pubkey → Nat}
    (h : systemTransfer b src dst amount = some b2) :
    amount ≤ b src := by
  unfold systemTransfer at h
  split at h
  · simp at h
  · omega

theorem systemTransfer_of_le {b : Pubkey → Nat} {src dst : Pubkey}
    {amount : Nat} (h : amount ≤ b src) :
    ∃ b2, systemTransfer b src dst amount = some b2 ∧
      (src ≠ dst → b2 src = b src - amount ∧ b2 dst = b dst + amount) ∧
      (∀ k, k ≠ src → k ≠ dst → b2 k = b k) := by
  unfold systemTransfer
  rw [if_neg (by omega)]
  refine ⟨_, rfl, ?_, ?_⟩
  · intro hne
    constructor
    · simp [hne]
    · simp
      intro hh
      exact absurd hh.symm hne
  · intro k hks hkd
    simp [hks, hkd]

theorem init_event_ok {auth eid price supply : Nat} {name date : String}
    {e : Event} (h : init_event auth eid price supply name date = .ok e) :
    strByteLen name ≤ MAX_NAME_LEN ∧ strByteLen date ≤ MAX_DATE_LEN ∧
    e = { event_authority := auth, price := price, supply := supply,
          sold := 0, canceled := false, event_id := eid,
          name := name, date := date } := by
  unfold init_event at h
  split at h
  · split at h
    · injection h with h
      simp_all
    · simp at h
  · simp at h

theorem mint_ticket_ok {e : Event} {ek buyer vk : Pubkey} {b : Pubkey → Nat}
    {r : MintResult} (h : mint_ticket e ek buyer vk b = .ok r) :
    e.canceled = false ∧ e.sold < e.supply ∧
    r.event = { e with sold := e.sold + 1 } ∧
    r.ticket = { owner := buyer, event := ek, ticket_id := e.sold,
                 is_used := false, refunded := false } ∧
    systemTransfer b buyer vk e.price = some r.balances := by
  unfold mint_ticket at h
  split at h
  · simp at h
  · split at h
    · split at h
      · simp at h
      · injection h with h
        subst h
        simp_all
    · simp at h

theorem transfer_ticket_ok {t : Ticket} {cur new_owner : Pubkey} {t2 : Ticket}
    (h : transfer_ticket t cur new_owner = .ok t2) :
    t.owner = cur ∧ t.is_used = false ∧ t.refunded = false ∧
    t2 = { t with owner := new_owner } := by
  unfold transfer_ticket at h
  split at h
  · split at h
    · simp at h
    · split at h
      · simp at h
      · injection h with h
        simp_all
  · simp at h

theorem check_in_ok {e : Event} {ek : Pubkey} {t : Ticket} {auth : Pubkey}
    {t2 : Ticket} (h : check_in e ek t auth = .ok t2) :
    t.event = ek ∧ auth = e.event_authority ∧ t.is_used = false ∧
    t.refunded = false ∧ t2 = { t with is_used := true } := by
  unfold check_in at h
  split at h
  · split at h
    · split at h
      · simp at h
      · split at h
        · simp at h
        · injection h with h
          simp_all
    · simp at h
  · simp at h

theorem refund_ok {e : Event} {ek : Pubkey} {t : Ticket} {vk dst auth : Pubkey}
    {b : Pubkey → Nat} {r : Ticket × (Pubkey → Nat)}
    (h : refund e ek t vk dst auth b = .ok r) :
    e.event_authority = auth ∧ t.event = ek ∧ t.is_used = false ∧
    t.refunded = false ∧ r.1 = { t with refunded := true } ∧
    systemTransfer b vk dst e.price = some r.2 := by
  unfold refund at h
  split at h
  · split at h
    · split at h
      · simp at h
      · split at h
        · simp at h
        · split at h
          · simp at h
          · injection h with h
            subst h
            simp_all
    · simp at h
  · simp at h

theorem cancel_event_ok {e : Event} {auth : Pubkey} {e2 : Event}
    (h : cancel_event e auth = .ok e2) :
    e.event_authority = auth ∧ e2 = { e with canceled := true } := by
  unfold cancel_event at h
  split at h
  · injection h with h
    simp_all
  · simp at h

/-! Inversion lemmas for `applyOp`. -/

theorem applyOp_mint {s : Chain} {buyer : Pubkey} {s2 : Chain}
    (h : applyOp s (.mintOp buyer) = some s2) :
    ∃ r, mint_ticket s.event s.eventKey buyer s.vaultKey s.balances = .ok r ∧
      s2 = { s with event := r.event, tickets := s.tickets ++ [r.ticket],
                    balances := r.balances } := by
  simp only [applyOp] at h
  split at h
  · next r hm =>
      injection h with h
      exact ⟨r, hm, h.symm⟩
  · simp at h

theorem applyOp_transferT {s : Chain} {i : Nat} {cur nw : Pubkey} {s2 : Chain}
    (h : applyOp s (.transferOp i cur nw) = some s2) :
    ∃ t t2, s.tickets[i]? = some t ∧ transfer_ticket t cur nw = .ok t2 ∧
      s2 = { s with tickets := s.tickets.set i t2 } := by
  simp only [applyOp] at h
  split at h
  · next t ht =>
      split at h
      · next t2 htr =>
          injection h with h
          exact ⟨t, t2, ht, htr, h.symm⟩
      · simp at h
  · simp at h

theorem applyOp_checkIn {s : Chain} {i : Nat} {auth : Pubkey} {s2 : Chain}
    (h : applyOp s (.checkInOp i auth) = some s2) :
    ∃ t t2, s.tickets[i]? = some t ∧
      check_in s.event s.eventKey t auth = .ok t2 ∧
      s2 = { s with tickets := s.tickets.set i t2 } := by
  simp only [applyOp] at h
  split at h
  · next t ht =>
      split at h
      · next t2 hc =>
          injection h with h
          exact ⟨t, t2, ht, hc, h.symm⟩
      · simp at h
  · simp at h

theorem applyOp_refundT {s : Chain} {i : Nat} {dst auth : Pubkey} {s2 : Chain}
    (h : applyOp s (.refundOp i dst auth) = some s2) :
    ∃ t r, s.tickets[i]? = some t ∧
      refund s.event s.eventKey t s.vaultKey dst auth s.balances = .ok r ∧
      s2 = { s with tickets := s.tickets.set i r.1, balances := r.2 } := by
  simp only [applyOp] at h
  split at h
  · next t ht =>
      split at h
      · next r hr =>
          injection h with h
          exact ⟨t, r, ht, hr, h.symm⟩
      · simp at h
  · simp at h

theorem applyOp_cancel {s : Chain} {auth : Pubkey} {s2 : Chain}
    (h : applyOp s (.cancelOp auth) = some s2) :
    ∃ e2, cancel_event s.event auth = .ok e2 ∧ s2 = { s with event := e2 } := by
  simp only [applyOp] at h
  split at h
  · next e2 hc =>
      injection h with h
      exact ⟨e2, hc, h.symm⟩
  · simp at h

/-! Chain invariants. -/

/-- Ticket-list helper: updating a slot with a ticket of the same id leaves
the id sequence unchanged. -/
theorem map_tid_set {l : List Ticket} {i : Nat} {t t2 : Ticket}
    (h : l[i]? = some t) (hid : t2.ticket_id = t.ticket_id) :
    (l.set i t2).map Ticket.ticket_id = l.map Ticket.ticket_id := by
  induction l generalizing i with
  | nil => simp at h
  | cons a l ih =>
    cases i with
    | zero =>
      simp only [List.getElem?_cons_zero, Option.some.injEq] at h
      subst h
      simp [hid]
    | succ n =>
      simp only [List.getElem?_cons_succ] at h
      simp [List.set_cons_succ, ih h]

/-- A successful instruction never changes the event's addresses, supply,
authority or price, and changes `sold` only by the guarded increment of a
mint. -/
theorem applyOp_event {s : Chain} {op : Op} {s2 : Chain}
    (h : applyOp s op = some s2) :
    s2.eventKey = s.eventKey ∧ s2.vaultKey = s.vaultKey ∧
    s2.event.supply = s.event.supply ∧
    s2.event.event_authority = s.event.event_authority ∧
    s2.event.price = s.event.price ∧
    (s2.event.sold = s.event.sold ∨
      (s.event.sold < s.event.supply ∧ s2.event.sold = s.event.sold + 1)) := by
  cases op with
  | mintOp buyer =>
    obtain ⟨r, hm, hs2⟩ := applyOp_mint h
    obtain ⟨-, hlt, hev, -, -⟩ := mint_ticket_ok hm
    subst hs2
    simp [hev, hlt]
  | transferOp i cur nw =>
    obtain ⟨t, t2, -, -, hs2⟩ := applyOp_transferT h
    subst hs2
    simp
  | checkInOp i auth =>
    obtain ⟨t, t2, -, -, hs2⟩ := applyOp_checkIn h
    subst hs2
    simp
  | refundOp i dst auth =>
    obtain ⟨t, r, -, -, hs2⟩ := applyOp_refundT h
    subst hs2
    simp
  | cancelOp auth =>
    obtain ⟨e2, hc, hs2⟩ := applyOp_cancel h
    obtain ⟨-, he2⟩ := cancel_event_ok hc
    subst hs2
    simp [he2]

/-- An instruction other than a mint leaves `sold` and `supply` untouched. -/
theorem applyOp_non_mint_sold {s : Chain} {op : Op} {s2 : Chain}
    (h : applyOp s op = some s2) (hnm : ∀ buyer, op ≠ .mintOp buyer) :
    s2.event.sold = s.event.sold ∧ s2.event.supply = s.event.supply := by
  cases op with
  | mintOp buyer => exact absurd rfl (hnm buyer)
  | transferOp i cur nw =>
    obtain ⟨t, t2, -, -, hs2⟩ := applyOp_transferT h
    subst hs2
    simp
  | checkInOp i auth =>
    obtain ⟨t, t2, -, -, hs2⟩ := applyOp_checkIn h
    subst hs2
    simp
  | refundOp i dst auth =>
    obtain ⟨t, r, -, -, hs2⟩ := applyOp_refundT h
    subst hs2
    simp
  | cancelOp auth =>
    obtain ⟨e2, hc, hs2⟩ := applyOp_cancel h
    obtain ⟨-, he2⟩ := cancel_event_ok hc
    subst hs2
    simp [he2]

/-- Reachability invariant: `sold ≤ supply`. -/
theorem reachable_sold_le {s : Chain} (h : Reachable s) :
    s.event.sold ≤ s.event.supply := by
  induction h with
  | create auth eid price supply name date e ek vk b hinit =>
    obtain ⟨-, -, he⟩ := init_event_ok hinit
    subst he
    simp
  | step s op s2 hr hstep ih =>
    obtain ⟨-, -, hsup, -, -, hsold⟩ := applyOp_event hstep
    rcases hsold with h1 | ⟨h1, h2⟩ <;> omega

/-- Reachability invariant: the event's tickets, in creation order, carry
exactly the ids `0, 1, …, sold - 1`. -/
theorem reachable_ids {s : Chain} (h : Reachable s) :
    s.tickets.map Ticket.ticket_id = List.range s.event.sold := by
  induction h with
  | create auth eid price supply name date e ek vk b hinit =>
    obtain ⟨-, -, he⟩ := init_event_ok hinit
    subst he
    simp
  | step s op s2 hr hstep ih =>
    cases op with
    | mintOp buyer =>
      obtain ⟨r, hm, hs2⟩ := applyOp_mint hstep
      obtain ⟨-, -, hev, htk, -⟩ := mint_ticket_ok hm
      subst hs2
      simp only [List.map_append, List.map_cons, List.map_nil, ih, hev, htk]
      rw [List.range_succ s.event.sold]
    | transferOp i cur nw =>
      obtain ⟨t, t2, ht, htr, hs2⟩ := applyOp_transferT hstep
      obtain ⟨-, -, -, ht2⟩ := transfer_ticket_ok htr
      subst hs2
      rw [show ({ s with tickets := s.tickets.set i t2 } : Chain).tickets
            = s.tickets.set i t2 from rfl]
      rw [map_tid_set ht (by simp [ht2])]
      exact ih
    | checkInOp i auth =>
      obtain ⟨t, t2, ht, hc, hs2⟩ := applyOp_checkIn hstep
      obtain ⟨-, -, -, -, ht2⟩ := check_in_ok hc
      subst hs2
      rw [show ({ s with tickets := s.tickets.set i t2 } : Chain).tickets
            = s.tickets.set i t2 from rfl]
      rw [map_tid_set ht (by simp [ht2])]
      exact ih
    | refundOp i dst auth =>
      obtain ⟨t, r, ht, hrf, hs2⟩ := applyOp_refundT hstep
      obtain ⟨-, -, -, -, hr1, -⟩ := refund_ok hrf
      subst hs2
      rw [show ({ s with tickets := s.tickets.set i r.1, balances := r.2 } : Chain).tickets
            = s.tickets.set i r.1 from rfl]
      rw [map_tid_set ht (by simp [hr1])]
      exact ih
    | cancelOp auth =>
      obtain ⟨e2, hc, hs2⟩ := applyOp_cancel hstep
      obtain ⟨-, he2⟩ := cancel_event_ok hc
      subst hs2
      simp [he2, ih]

/-- One successful instruction can never turn a used ticket back into an
unused one: the ticket at any index stays used. -/
theorem applyOp_used_mono {s : Chain} {op : Op} {s2 : Chain}
    (h : applyOp s op = some s2) {i : Nat} {t : Ticket}
    (ht : s.tickets[i]? = some t) (hu : t.is_used = true) :
    ∃ t2, s2.tickets[i]? = some t2 ∧ t2.is_used = true := by
  have hlen : i < s.tickets.length := (List.getElem?_eq_some.mp ht).1
  cases op with
  | mintOp buyer =>
    obtain ⟨r, hm, hs2⟩ := applyOp_mint h
    subst hs2
    refine ⟨t, ?_, hu⟩
    rw [show ({ s with event := r.event, tickets := s.tickets ++ [r.ticket],
                       balances := r.balances } : Chain).tickets
          = s.tickets ++ [r.ticket] from rfl]
    rw [List.getElem?_append, if_pos hlen]
    exact ht
  | transferOp j cur nw =>
    obtain ⟨t1, t2, ht1, htr, hs2⟩ := applyOp_transferT h
    obtain ⟨-, hused, -, -⟩ := transfer_ticket_ok htr
    subst hs2
    by_cases hij : j = i
    · subst hij
      rw [ht1] at ht
      injection ht with ht
      subst ht
      rw [hused] at hu
      cases hu
    · refine ⟨t, ?_, hu⟩
      simpa [List.getElem?_set, hij] using ht
  | checkInOp j auth =>
    obtain ⟨t1, t2, ht1, hc, hs2⟩ := applyOp_checkIn h
    obtain ⟨-, -, -, -, ht2⟩ := check_in_ok hc
    subst hs2
    by_cases hij : j = i
    · subst hij
      refine ⟨t2, ?_, by simp [ht2]⟩
      simp [List.getElem?_set, hlen]
    · refine ⟨t, ?_, hu⟩
      simpa [List.getElem?_set, hij] using ht
  | refundOp j dst auth =>
    obtain ⟨t1, r, ht1, hrf, hs2⟩ := applyOp_refundT h
    obtain ⟨-, -, hused, -, -, -⟩ := refund_ok hrf
    subst hs2
    by_cases hij : j = i
    · subst hij
      rw [ht1] at ht
      injection ht with ht
      subst ht
      rw [hused] at hu
      cases hu
    · refine ⟨t, ?_, hu⟩
      simpa [List.getElem?_set, hij] using ht
  | cancelOp auth =>
    obtain ⟨e2, hc, hs2⟩ := applyOp_cancel h
    subst hs2
    exact ⟨t, ht, hu⟩

/-- `is_used` is monotone along any sequence of successful instructions. -/
theorem steps_used_mono {s s2 : Chain} (h : Steps s s2) {i : Nat} {t : Ticket}
    (ht : s.tickets[i]? = some t) (hu : t.is_used = true) :
    ∃ t2, s2.tickets[i]? = some t2 ∧ t2.is_used = true := by
  induction h with
  | refl => exact ⟨t, ht, hu⟩
  | tail s2 s3 op hs hstep ih =>
    obtain ⟨t2, ht2, hu2⟩ := ih
    exact applyOp_used_mono hstep ht2 hu2

/-! Concrete sample data shared by the witnesses. -/

/-- A freshly created sample event: authority 2, price 100, supply 3. -/
def sampleEvent : Event :=
  { event_authority := 2, price := 100, supply := 3, sold := 0,
    canceled := false, event_id := 1, name := "Gig", date := "2025-01-01" }

/-- A sample chain state holding `sampleEvent` at address 7 with vault 5. -/
def sampleChain : Chain :=
  { event := sampleEvent, eventKey := 7, vaultKey := 5, tickets := [],
    balances := fun _ => 1000 }

/-! Failure lemmas for `mint_ticket`. -/

theorem mint_err_canceled (e : Event) (ek buyer vk : Pubkey)
    (b : Pubkey → Nat) (hc : e.canceled = true) :
    mint_ticket e ek buyer vk b = .error (.program .EventCanceled) := by
  unfold mint_ticket
  rw [hc]
  simp

theorem mint_err_soldout (e : Event) (ek buyer vk : Pubkey)
    (b : Pubkey → Nat) (hc : e.canceled = false) (hss : e.sold = e.supply) :
    mint_ticket e ek buyer vk b = .error (.program .EventSoldOut) := by
  unfold mint_ticket
  rw [hc]
  simp only [Bool.false_eq_true, if_false]
  rw [if_neg (by omega)]

/-! The claims. -/

/-- C1: the spec states that a refund whose preconditions hold (authority
signs, `ticket.event` matches, ticket unused and unrefunded) pays
`event.price` lamports from the vault to the account identified by
`ticket.owner`.  The code instead pays the caller-supplied `ticket_owner`
account, which no constraint ties to `ticket.owner` (contradicting the
`/// CHECK` doc on `Refund::ticket_owner`).  At this concrete input every
stated precondition holds, the supplied destination account 9 differs from
the ticket's owner 1, and the 100 lamports leave the vault 5 for account 9
while the owner's account 1 stays at 0; `refunded` still flips to true. -/
theorem C1_refund_recipient_divergence :
    ∃ b2,
      refund
        { event_authority := 2, price := 100, supply := 10, sold := 1,
          canceled := false, event_id := 1, name := "Gig",
          date := "2025-01-01" }
        7
        { owner := 1, event := 7, ticket_id := 0, is_used := false,
          refunded := false }
        5 9 2
        (fun k => if k = 5 then 100 else 0)
      = .ok ({ owner := 1, event := 7, ticket_id := 0, is_used := false,
               refunded := true }, b2)
      ∧ b2 9 = 100 ∧ b2 1 = 0 ∧ b2 5 = 0 := by
  exact ⟨_, rfl, rfl, rfl, rfl⟩

/-- C2: a mint on a live, not sold-out event atomically moves exactly
`event.price` lamports buyer → vault, creates the ticket with
`ticket_id = sold` (pre-increment), `owner = buyer`, both flags false, and
increments `sold` by one; when the transfer cannot be completed
(insufficient buyer balance) the instruction fails with no other effect
(an `Except.error` carries no state). -/
theorem C2_mint_ticket_effects :
    ∀ (e : Event) (ek buyer vk : Pubkey) (b : Pubkey → Nat),
      e.canceled = false → e.sold < e.supply →
      (e.price ≤ b buyer →
        ∃ b2,
          mint_ticket e ek buyer vk b =
            .ok { event := { e with sold := e.sold + 1 },
                  ticket := { owner := buyer, event := ek,
                              ticket_id := e.sold, is_used := false,
                              refunded := false },
                  balances := b2 }
          ∧ (buyer ≠ vk → b2 buyer = b buyer - e.price ∧
              b2 vk = b vk + e.price)
          ∧ (∀ k, k ≠ buyer → k ≠ vk → b2 k = b k))
      ∧ (b buyer < e.price →
          mint_ticket e ek buyer vk b = .error .transferFailed) := by
  intro e ek buyer vk b hc hs
  constructor
  · intro hp
    obtain ⟨b2, hT, hpt, hrest⟩ := systemTransfer_of_le hp
    refine ⟨b2, ?_, hpt, hrest⟩
    unfold mint_ticket
    rw [hc]
    simp only [Bool.false_eq_true, if_false, if_pos hs, hT]
  · intro hlt
    unfold mint_ticket systemTransfer
    rw [hc]
    simp only [Bool.false_eq_true, if_false, if_pos hs, if_pos hlt]

/-- C3: minting on a canceled event fails with `EventCanceled`; minting on
a live but sold-out event (`sold == supply`) fails with `EventSoldOut`; in
either case the transaction produces no successor state, so `sold` and the
ticket set are unchanged. -/
theorem C3_mint_ticket_failure_cases :
    (∀ (e : Event) (ek buyer vk : Pubkey) (b : Pubkey → Nat),
      (e.canceled = true →
        mint_ticket e ek buyer vk b = .error (.program .EventCanceled))
      ∧ (e.canceled = false → e.sold = e.supply →
        mint_ticket e ek buyer vk b = .error (.program .EventSoldOut)))
    ∧ (∀ (s : Chain) (buyer : Pubkey),
        s.event.canceled = true ∨ s.event.sold = s.event.supply →
        applyOp s (.mintOp buyer) = none) := by
  constructor
  · intro e ek buyer vk b
    exact ⟨mint_err_canceled e ek buyer vk b,
           mint_err_soldout e ek buyer vk b⟩
  · intro s buyer hcase
    simp only [applyOp]
    rcases hcase with hc | hss
    · rw [mint_err_canceled s.event s.eventKey buyer s.vaultKey s.balances hc]
    · cases hcanc : s.event.canceled with
      | true =>
        rw [mint_err_canceled s.event s.eventKey buyer s.vaultKey s.balances
              hcanc]
      | false =>
        rw [mint_err_soldout s.event s.eventKey buyer s.vaultKey s.balances
              hcanc hss]

/-- C4: in every reachable chain state `0 ≤ sold ≤ supply`; the
event-creation instruction establishes it (`sold = 0`, `supply` stored
verbatim); every successful instruction preserves `supply` and changes
`sold` only by the mint's guarded increment; and any successful
instruction other than a mint leaves both `sold` and `supply` untouched. -/
theorem C4_sold_within_supply :
    (∀ s : Chain, Reachable s →
      0 ≤ s.event.sold ∧ s.event.sold ≤ s.event.supply)
    ∧ (∀ (auth eid price supply : Nat) (name date : String) (e : Event),
        init_event auth eid price supply name date = .ok e →
        e.sold = 0 ∧ e.supply = supply)
    ∧ (∀ (s : Chain) (op : Op) (s2 : Chain), applyOp s op = some s2 →
        s2.event.supply = s.event.supply ∧
        (s2.event.sold = s.event.sold ∨
          (s.event.sold < s.event.supply ∧
            s2.event.sold = s.event.sold + 1)))
    ∧ (∀ (s : Chain) (op : Op) (s2 : Chain), applyOp s op = some s2 →
        (∀ buyer, op ≠ .mintOp buyer) →
        s2.event.sold = s.event.sold ∧
        s2.event.supply = s.event.supply) := by
  refine ⟨?_, ?_, ?_, ?_⟩
  · intro s hs
    exact ⟨Nat.zero_le _, reachable_sold_le hs⟩
  · intro auth eid price supply name date e h
    obtain ⟨-, -, he⟩ := init_event_ok h
    subst he
    exact ⟨rfl, rfl⟩
  · intro s op s2 h
    obtain ⟨-, -, hsup, -, -, hsold⟩ := applyOp_event h
    exact ⟨hsup, hsold⟩
  · intro s op s2 h hnm
    exact applyOp_non_mint_sold h hnm

/-- C5: in every reachable chain state the tickets, in mint order, carry
exactly the ids `0, 1, …, sold - 1` (so the i-th successful mint created
`ticket_id = i` and no id ever repeats), every ticket's id is below the
event's supply, and a successful refund changes neither `sold` nor the id
sequence — the consumed supply slot is never freed. -/
theorem C5_ticket_id_assignment :
    (∀ s : Chain, Reachable s →
      s.tickets.map Ticket.ticket_id = List.range s.event.sold
      ∧ (∀ t ∈ s.tickets, t.ticket_id < s.event.supply)
      ∧ (s.tickets.map Ticket.ticket_id).Nodup)
    ∧ (∀ (s : Chain) (i : Nat) (dst auth : Pubkey) (s2 : Chain),
        applyOp s (.refundOp i dst auth) = some s2 →
        s2.event.sold = s.event.sold ∧
        s2.tickets.map Ticket.ticket_id =
          s.tickets.map Ticket.ticket_id) := by
  constructor
  · intro s hs
    have hids := reachable_ids hs
    refine ⟨hids, ?_, ?_⟩
    · intro t ht
      have hmem : t.ticket_id ∈ s.tickets.map Ticket.ticket_id :=
        List.mem_map_of_mem _ ht
      rw [hids] at hmem
      exact lt_of_lt_of_le (List.mem_range.mp hmem) (reachable_sold_le hs)
    · rw [hids]
      exact List.nodup_range _
  · intro s i dst auth s2 h
    obtain ⟨t, r, ht, hrf, hs2⟩ := applyOp_refundT h
    obtain ⟨-, -, -, -, hr1, -⟩ := refund_ok hrf
    subst hs2
    exact ⟨rfl, map_tid_set ht (by simp [hr1])⟩

/-- C6: cancellation blocks only future mints.  On an event with
`canceled = true`: a mint fails with `EventCanceled`, while `check_in`,
`transfer_ticket` and `refund` — none of whose precondition checks reads
`canceled` — still succeed on a ticket of that event whose own
preconditions hold (correct signer, `is_used = false`,
`refunded = false`; for the refund the vault must still hold the price). -/
theorem C6_cancel_blocks_only_mint :
    ∀ (e : Event) (ek : Pubkey) (t : Ticket) (vk dst nw buyer : Pubkey)
      (b : Pubkey → Nat),
      e.canceled = true →
      (mint_ticket e ek buyer vk b = .error (.program .EventCanceled))
      ∧ (t.event = ek → t.is_used = false → t.refunded = false →
          check_in e ek t e.event_authority = .ok { t with is_used := true })
      ∧ (t.is_used = false → t.refunded = false →
          transfer_ticket t t.owner nw = .ok { t with owner := nw })
      ∧ (t.event = ek → t.is_used = false → t.refunded = false →
          e.price ≤ b vk →
          ∃ b2, refund e ek t vk dst e.event_authority b =
            .ok ({ t with refunded := true }, b2)) := by
  intro e ek t vk dst nw buyer b hc
  refine ⟨mint_err_canceled e ek buyer vk b hc, ?_, ?_, ?_⟩
  · intro hev hu hr
    unfold check_in
    rw [if_pos hev, if_pos rfl, hu, hr]
    simp
  · intro hu hr
    unfold transfer_ticket
    rw [if_pos rfl, hu, hr]
    simp
  · intro hev hu hr hbal
    obtain ⟨b2, hT, -, -⟩ := systemTransfer_of_le hbal
    refine ⟨b2, ?_⟩
    unfold refund
    rw [if_pos rfl, if_pos hev, hu, hr, hT]
    simp

/-- C7: `transfer_ticket` fails with `UnauthorizedTransfer` when the signer
is not `ticket.owner`; with the signer correct it fails with
`TicketAlreadyUsed` when `is_used`, then with `AlreadyRefunded` when
`refunded`; when all three preconditions hold it sets `owner := new_owner`
and leaves every other field unchanged (the handler moves no lamports, and
a failure returns an error with no successor state, so the owner is
unchanged on failure). -/
theorem C7_transfer_ticket_cases :
    ∀ (t : Ticket) (cur nw : Pubkey),
      (t.owner ≠ cur →
        transfer_ticket t cur nw = .error (.program .UnauthorizedTransfer))
      ∧ (t.owner = cur → t.is_used = true →
        transfer_ticket t cur nw = .error (.program .TicketAlreadyUsed))
      ∧ (t.owner = cur → t.is_used = false → t.refunded = true →
        transfer_ticket t cur nw = .error (.program .AlreadyRefunded))
      ∧ (t.owner = cur → t.is_used = false → t.refunded = false →
        transfer_ticket t cur nw =
          .ok { owner := nw, event := t.event, ticket_id := t.ticket_id,
                is_used := false, refunded := false }) := by
  intro t cur nw
  refine ⟨?_, ?_, ?_, ?_⟩
  · intro hne
    unfold transfer_ticket
    rw [if_neg hne]
  · intro ho hu
    unfold transfer_ticket
    rw [if_pos ho, hu]
    simp
  · intro ho hu hr
    unfold transfer_ticket
    rw [if_pos ho, hu, hr]
    simp
  · intro ho hu hr
    unfold transfer_ticket
    rw [if_pos ho, hu, hr]
    simp

/-- C8 counterexample: the claim measures `name` in characters, but the
handler checks Rust's `String::len`, which counts UTF-8 bytes.  The name
below has 26 characters — within the claimed 50-character limit, so the
claim says the event is created — yet its 26 two-byte characters occupy
52 bytes, and the code rejects it with `NameTooLong`. -/
theorem C8_charlen_counterexample :
    "éééééééééééééééééééééééééé".data.length = 26
    ∧ strByteLen "éééééééééééééééééééééééééé" = 52
    ∧ strByteLen "2025-01-01" ≤ 30
    ∧ init_event 2 1 100 3 "éééééééééééééééééééééééééé" "2025-01-01"
        = .error (.program .NameTooLong) := by
  exact ⟨by decide, by decide, by decide, rfl⟩

/-- C8 (amended): the event-creation instruction fails with `NameTooLong`
when `name` exceeds 50 UTF-8 *bytes* (Rust `String::len`) and with
`DateTooLong` when `date` exceeds 30 UTF-8 bytes, checked in that order
before any mutation; otherwise it creates the event with `sold = 0`,
`canceled = false`, storing `event_authority`, `price`, `supply`,
`event_id`, `name` and `date` verbatim from the arguments. -/
theorem C8_init_event_byte_bounds :
    ∀ (auth eid price supply : Nat) (name date : String),
      (MAX_NAME_LEN < strByteLen name →
        init_event auth eid price supply name date =
          .error (.program .NameTooLong))
      ∧ (strByteLen name ≤ MAX_NAME_LEN → MAX_DATE_LEN < strByteLen date →
        init_event auth eid price supply name date =
          .error (.program .DateTooLong))
      ∧ (strByteLen name ≤ MAX_NAME_LEN → strByteLen date ≤ MAX_DATE_LEN →
        init_event auth eid price supply name date =
          .ok { event_authority := auth, price := price, supply := supply,
                sold := 0, canceled := false, event_id := eid,
                name := name, date := date }) := by
  intro auth eid price supply name date
  refine ⟨?_, ?_, ?_⟩
  · intro hn
    unfold init_event
    rw [if_neg (by omega)]
  · intro hn hd
    unfold init_event
    rw [if_pos hn, if_neg (by omega)]
  · intro hn hd
    unfold init_event
    rw [if_pos hn, if_pos hd]

/-- C9: `is_used` is monotone — once a ticket is used it stays used in
every state reachable by any further sequence of successful instructions
(no instruction writes `is_used := false`); and a second `check_in` on the
same ticket, with the same valid accounts, fails with `AlreadyCheckedIn`,
leaving no successor state, so `is_used` stays true. -/
theorem C9_is_used_monotone :
    (∀ (s s2 : Chain), Steps s s2 → ∀ (i : Nat) (t : Ticket),
      s.tickets[i]? = some t → t.is_used = true →
      ∃ t2, s2.tickets[i]? = some t2 ∧ t2.is_used = true)
    ∧ (∀ (e : Event) (ek : Pubkey) (t : Ticket),
      t.event = ek → t.is_used = true →
      check_in e ek t e.event_authority =
        .error (.program .AlreadyCheckedIn)) := by
  constructor
  · intro s s2 h i t ht hu
    exact steps_used_mono h ht hu
  · intro e ek t hev hu
    unfold check_in
    rw [if_pos hev, if_pos rfl, hu]
    simp

/-- C10: `cancel_event` is idempotent and never fails on an
already-canceled event: when the event authority signs a second
cancellation of an event with `canceled = true`, the instruction succeeds
(no `AlreadyCanceled` error exists) and returns the event record
completely unchanged — `canceled`, `sold`, `supply`, `price`, `event_id`,
`name` and `date` all keep their previous values. -/
theorem C10_cancel_event_idempotent :
    ∀ (e : Event) (auth : Pubkey),
      e.event_authority = auth → e.canceled = true →
      cancel_event e auth = .ok e := by
  intro e auth ha hc
  unfold cancel_event
  rw [if_pos ha]
  cases e
  simp_all

/-! Witnesses: the claim theorems instantiated at concrete inputs. -/

/-- C2 witness: minting ticket 0 of `sampleEvent` for buyer 3. -/
theorem C2_mint_ticket_effects_witness :
    ∃ b2,
      mint_ticket sampleEvent 7 3 5 (fun _ => 1000) =
        .ok { event := { sampleEvent with sold := sampleEvent.sold + 1 },
              ticket := { owner := 3, event := 7,
                          ticket_id := sampleEvent.sold, is_used := false,
                          refunded := false },
              balances := b2 }
      ∧ ((3 : Pubkey) ≠ 5 → b2 3 = 1000 - sampleEvent.price ∧
          b2 5 = 1000 + sampleEvent.price)
      ∧ (∀ k, k ≠ 3 → k ≠ 5 → b2 k = 1000) := by
  exact (C2_mint_ticket_effects sampleEvent 7 3 5 (fun _ => 1000) rfl
    (by decide)).1 (by decide)

/-- C3 witness: a canceled and a sold-out instance. -/
theorem C3_mint_ticket_failure_cases_witness :
    mint_ticket { sampleEvent with canceled := true } 7 3 5 (fun _ => 1000)
      = .error (.program .EventCanceled)
    ∧ mint_ticket { sampleEvent with sold := 3 } 7 3 5 (fun _ => 1000)
      = .error (.program .EventSoldOut)
    ∧ applyOp { sampleChain with
                event := { sampleEvent with canceled := true } }
        (.mintOp 3) = none := by
  refine ⟨?_, ?_, ?_⟩
  · exact (C3_mint_ticket_failure_cases.1 _ 7 3 5 _).1 rfl
  · exact (C3_mint_ticket_failure_cases.1 _ 7 3 5 _).2 rfl rfl
  · exact C3_mint_ticket_failure_cases.2 _ 3 (Or.inl rfl)

/-- C4 witness: the invariant at the freshly created `sampleChain`. -/
theorem C4_sold_within_supply_witness :
    (0 ≤ sampleChain.event.sold ∧
      sampleChain.event.sold ≤ sampleChain.event.supply)
    ∧ (∃ e, init_event 2 1 100 3 "Gig" "2025-01-01" = .ok e ∧
        e.sold = 0 ∧ e.supply = 3) := by
  constructor
  · exact C4_sold_within_supply.1 sampleChain
      (Reachable.create 2 1 100 3 "Gig" "2025-01-01" sampleEvent 7 5
        (fun _ => 1000) rfl)
  · exact ⟨sampleEvent, rfl,
      C4_sold_within_supply.2.1 2 1 100 3 "Gig" "2025-01-01" sampleEvent rfl⟩

/-- C5 witness: after one successful mint on `sampleChain` the id sequence
is `[0]`, below the supply and without repetition. -/
theorem C5_ticket_id_assignment_witness :
    ∃ s2, applyOp sampleChain (.mintOp 3) = some s2
      ∧ s2.tickets.map Ticket.ticket_id = List.range s2.event.sold
      ∧ (∀ t ∈ s2.tickets, t.ticket_id < s2.event.supply)
      ∧ (s2.tickets.map Ticket.ticket_id).Nodup := by
  refine ⟨_, rfl, ?_⟩
  have hr : Reachable sampleChain :=
    Reachable.create 2 1 100 3 "Gig" "2025-01-01" sampleEvent 7 5
      (fun _ => 1000) rfl
  have h := C5_ticket_id_assignment.1 _
    (Reachable.step sampleChain (.mintOp 3) _ hr rfl)
  exact ⟨h.1, h.2.1, h.2.2⟩

/-- C6 witness: on the canceled `sampleEvent`, a mint is blocked while
check-in, transfer and refund of an existing ticket still succeed. -/
theorem C6_cancel_blocks_only_mint_witness :
    mint_ticket { sampleEvent with canceled := true } 7 4 5 (fun _ => 1000)
      = .error (.program .EventCanceled)
    ∧ check_in { sampleEvent with canceled := true } 7
        { owner := 3, event := 7, ticket_id := 0, is_used := false,
          refunded := false } 2
      = .ok { owner := 3, event := 7, ticket_id := 0, is_used := true,
              refunded := false }
    ∧ transfer_ticket
        { owner := 3, event := 7, ticket_id := 0, is_used := false,
          refunded := false } 3 4
      = .ok { owner := 4, event := 7, ticket_id := 0, is_used := false,
              refunded := false }
    ∧ (∃ b2, refund { sampleEvent with canceled := true } 7
        { owner := 3, event := 7, ticket_id := 0, is_used := false,
          refunded := false } 5 9 2 (fun _ => 1000)
      = .ok ({ owner := 3, event := 7, ticket_id := 0, is_used := false,
               refunded := true }, b2)) := by
  have h := C6_cancel_blocks_only_mint { sampleEvent with canceled := true }
    7 { owner := 3, event := 7, ticket_id := 0, is_used := false,
        refunded := false } 5 9 4 4 (fun _ => 1000) rfl
  exact ⟨h.1, h.2.1 rfl rfl rfl, h.2.2.1 rfl rfl,
         h.2.2.2 rfl rfl rfl (by decide)⟩

/-- C7 witness: all four branches of the transfer instruction. -/
theorem C7_transfer_ticket_cases_witness :
    transfer_ticket
      { owner := 3, event := 7, ticket_id := 0, is_used := false,
        refunded := false } 4 9
      = .error (.program .UnauthorizedTransfer)
    ∧ transfer_ticket
        { owner := 3, event := 7, ticket_id := 0, is_used := true,
          refunded := false } 3 9
      = .error (.program .TicketAlreadyUsed)
    ∧ transfer_ticket
        { owner := 3, event := 7, ticket_id := 0, is_used := false,
          refunded := true } 3 9
      = .error (.program .AlreadyRefunded)
    ∧ transfer_ticket
        { owner := 3, event := 7, ticket_id := 0, is_used := false,
          refunded := false } 3 9
      = .ok { owner := 9, event := 7, ticket_id := 0, is_used := false,
              refunded := false } := by
  exact ⟨(C7_transfer_ticket_cases _ 4 9).1 (by decide),
         (C7_transfer_ticket_cases _ 3 9).2.1 rfl rfl,
         (C7_transfer_ticket_cases _ 3 9).2.2.1 rfl rfl rfl,
         (C7_transfer_ticket_cases _ 3 9).2.2.2 rfl rfl rfl⟩

/-- C8 witness: a 3-byte name is accepted verbatim and a 51-byte ASCII
name is rejected. -/
theorem C8_init_event_byte_bounds_witness :
    init_event 2 1 100 3 "Gig" "2025-01-01" =
      .ok { event_authority := 2, price := 100, supply := 3, sold := 0,
            canceled := false, event_id := 1, name := "Gig",
            date := "2025-01-01" }
    ∧ init_event 2 1 100 3
        "aaaaaaaaaaaaaaaaaaaaaaaaaaaaaaaaaaaaaaaaaaaaaaaaaaa" "2025-01-01"
      = .error (.program .NameTooLong) := by
  constructor
  · exact (C8_init_event_byte_bounds 2 1 100 3 "Gig" "2025-01-01").2.2
      (by decide) (by decide)
  · exact (C8_init_event_byte_bounds 2 1 100 3
      "aaaaaaaaaaaaaaaaaaaaaaaaaaaaaaaaaaaaaaaaaaaaaaaaaaa"
      "2025-01-01").1 (by decide)

/-- C9 witness: a used ticket stays used across the empty instruction
sequence, and its second check-in fails with `AlreadyCheckedIn`. -/
theorem C9_is_used_monotone_witness :
    (∃ t2, ({ event := sampleEvent, eventKey := 7, vaultKey := 5,
              tickets := [{ owner := 3, event := 7, ticket_id := 0,
                            is_used := true, refunded := false }],
              balances := fun _ => 1000 } : Chain).tickets[0]? = some t2
      ∧ t2.is_used = true)
    ∧ check_in sampleEvent 7
        { owner := 3, event := 7, ticket_id := 0, is_used := true,
          refunded := false } 2
      = .error (.program .AlreadyCheckedIn) := by
  constructor
  · exact C9_is_used_monotone.1 _ _ (Steps.refl _) 0
      { owner := 3, event := 7, ticket_id := 0, is_used := true,
        refunded := false } rfl rfl
  · exact C9_is_used_monotone.2 sampleEvent 7 _ rfl rfl

/-- C10 witness: cancelling the already-canceled `sampleEvent` again
returns the record unchanged. -/
theorem C10_cancel_event_idempotent_witness :
    cancel_event { sampleEvent with canceled := true } 2 =
      .ok { sampleEvent with canceled := true } := by
  exact C10_cancel_event_idempotent { sampleEvent with canceled := true } 2
    rfl rfl

end EventTicketing
